import Mathlib

/-!
Shallow embedding of the QuickImageResizer core (the first App component of
the source): the settings store with undo/redo history, image ingest, the
resize render pipeline and its debounced scheduling guard.

Numbers are modelled as exact rationals (JS arithmetic on the magnitudes in
play is exact for the integer values the app manipulates); a possibly-NaN
numeric input (the result of parseInt on a text field) is modelled as
Option ℚ with none standing for NaN.  Math.round rounds half toward
positive infinity, which on rationals is fun x => ⌊x + 1/2⌋.
-/

/-- The unit enum of ResizeSettings: the source literals are the strings
px and percent. -/
inductive ResizeUnit where
  | px
  | percent
deriving DecidableEq, Repr

/-- ResizeSettings from types.ts, the fields the first App component uses
(the quality field of the interface is unused by it). -/
structure ResizeSettings where
  width : ℚ
  height : ℚ
  maintainAspectRatio : Bool
  unit : ResizeUnit
  percentage : ℚ
deriving DecidableEq, Repr

/-- ImageData from types.ts, the fields the first App component uses. -/
structure ImageData where
  originalUrl : String
  name : String
  type : String
  width : ℚ
  height : ℚ
deriving DecidableEq, Repr

/-- A raw File as the upload handler sees it: its name, declared MIME type
and content (the data URL the FileReader produces from it). -/
structure JsFile where
  name : String
  type : String
  content : String
deriving DecidableEq, Repr

/-- The React state of the component: fileData, settings, the history and
future stacks, the latest resized data URL and the isResizing flag. -/
structure AppState where
  fileData : Option ImageData
  settings : ResizeSettings
  history : List ResizeSettings
  future : List ResizeSettings
  resizedUrl : Option String
  isResizing : Bool
deriving DecidableEq, Repr

/-- JavaScript Math.round on an exact rational: half rounds up. -/
def jround (x : ℚ) : ℤ := (x + 1/2).floor

/-- Character-list version of the prefix test behind
String.prototype.startsWith. -/
def charsLeading : List Char → List Char → Bool
  | [], _ => true
  | _ :: _, [] => false
  | a :: as, b :: bs => a == b && charsLeading as bs

/-- file.type.startsWith of the source, on the underlying character data. -/
def jsStartsWith (s pre : String) : Bool := charsLeading pre.data s.data

/-- pushToHistory: appends the given prior settings to history and clears
the redo stack. -/
def pushToHistory (s : AppState) (prevSettings : ResizeSettings) : AppState :=
  { s with history := s.history ++ [prevSettings], future := [] }

/-- handleUndo: no-op if history is empty, else move the last history entry
into settings, pushing the current settings on the front of future. -/
def handleUndo (s : AppState) : AppState :=
  match s.history.getLast? with
  | none => s
  | some previous =>
      { s with
        future := s.settings :: s.future
        history := s.history.dropLast
        settings := previous }

/-- handleRedo: no-op if future is empty, else move the first future entry
into settings, appending the current settings to history. -/
def handleRedo (s : AppState) : AppState :=
  match s.future with
  | [] => s
  | next :: rest =>
      { s with
        history := s.history ++ [s.settings]
        future := rest
        settings := next }

/-- handleFileUpload: rejects a file whose declared type does not start
with image/; otherwise the asynchronous decode either never completes
(decoded = none, nothing runs) or yields natural dimensions, upon which
fileData is replaced and the settings are seeded.  resizedUrl and
isResizing are not touched. -/
def handleFileUpload (s : AppState) (file : JsFile) (decoded : Option (ℚ × ℚ)) :
    AppState :=
  if jsStartsWith file.type ("image/") = false then s
  else
    match decoded with
    | none => s
    | some (w, h) =>
        { s with
          fileData := some
            { originalUrl := file.content
              name := file.name
              type := file.type
              width := w
              height := h }
          settings :=
            { width := w
              height := h
              maintainAspectRatio := true
              unit := ResizeUnit.px
              percentage := 50 }
          history := []
          future := [] }

/-- reset: clears the image, the output URL, both stacks, and restores the
default settings.  isResizing is not touched. -/
def reset (s : AppState) : AppState :=
  { s with
    fileData := none
    resizedUrl := none
    history := []
    future := []
    settings :=
      { width := 0
        height := 0
        maintainAspectRatio := true
        unit := ResizeUnit.px
        percentage := 50 } }

/-- The target dimensions performResize computes once the image has
loaded: start from the stored width and height, in percent mode override
them with round(natural * percentage / 100), then clamp both to at
least 1. -/
def renderTargetDims (fileData : ImageData) (settings : ResizeSettings) :
    ℚ × ℚ :=
  let targetWidth := settings.width
  let targetHeight := settings.height
  let targetWidth :=
    if settings.unit = ResizeUnit.percent
    then ((jround ((fileData.width * settings.percentage) / 100) : ℤ) : ℚ)
    else targetWidth
  let targetHeight :=
    if settings.unit = ResizeUnit.percent
    then ((jround ((fileData.height * settings.percentage) / 100) : ℤ) : ℚ)
    else targetHeight
  (max 1 targetWidth, max 1 targetHeight)

/-- The canvas.toDataURL encoding step, modelled as a deterministic
function of the MIME type, the target dimensions and the source URL (the
browser encoder is outside the program; only which value resizedUrl is set
to matters to the claims). -/
def canvasToDataURL (mimeType : String) (w h : ℚ) (src : String) : String :=
  mimeType ++ toString (jround w) ++ toString (jround h) ++ src

/-- A render that performResize has started but whose image load has not
yet completed: it captured fileData and settings at call time. -/
structure PendingRender where
  fileData : ImageData
  settings : ResizeSettings
deriving DecidableEq, Repr

/-- How the asynchronous part of performResize finishes: the image load
fires onload (with the 2d canvas context available or not), or the load
fails, for which the source registers no handler. -/
inductive LoadOutcome where
  | success (ctxAvailable : Bool)
  | failure
deriving DecidableEq, Repr

/-- The synchronous part of performResize: bail out if no image is loaded,
else raise isResizing and start the load of the captured image under the
captured settings. -/
def performResize (s : AppState) : AppState × Option PendingRender :=
  match s.fileData with
  | none => (s, none)
  | some fd => ({ s with isResizing := true }, some ⟨fd, s.settings⟩)

/-- The completion of a pending render.  On load success the onload body
runs: if the 2d context is available the canvas output becomes the new
resizedUrl, and isResizing is cleared either way.  On load failure no
registered handler runs, so the state is untouched. -/
def completeRender (s : AppState) (p : PendingRender) (o : LoadOutcome) :
    AppState :=
  match o with
  | LoadOutcome.failure => s
  | LoadOutcome.success ctxAvailable =>
      let dims := renderTargetDims p.fileData p.settings
      let dataUrl :=
        canvasToDataURL p.fileData.type dims.1 dims.2 p.fileData.originalUrl
      let s1 :=
        if ctxAvailable then { s with resizedUrl := some dataUrl } else s
      { s1 with isResizing := false }

/-- The guard of the debounced useEffect: a render pass is scheduled
unless no image is loaded or the stored width or height field is 0. -/
def renderScheduled (s : AppState) : Bool :=
  !(s.fileData.isNone || decide (s.settings.width = 0)
    || decide (s.settings.height = 0))

/-- The clamp applied to a possibly-NaN width or height input:
isNaN w ? 0 : Math.max(0, w). -/
def clampInput (w : Option ℚ) : ℚ :=
  match w with
  | none => 0
  | some v => max 0 v

/-- updateWidth: no-op without an image; else clamp the input, push the
prior settings, and store the new width, recomputing the height from the
natural aspect ratio when the lock is on and the new width is positive. -/
def updateWidth (s : AppState) (w : Option ℚ) : AppState :=
  match s.fileData with
  | none => s
  | some fileData =>
      let newWidth := clampInput w
      let s1 := pushToHistory s s.settings
      let prev := s1.settings
      let newHeight :=
        if prev.maintainAspectRatio && decide (0 < newWidth)
        then ((jround ((newWidth / fileData.width) * fileData.height) : ℤ) : ℚ)
        else prev.height
      { s1 with settings := { prev with width := newWidth, height := newHeight } }

/-- updateHeight: symmetric to updateWidth. -/
def updateHeight (s : AppState) (h : Option ℚ) : AppState :=
  match s.fileData with
  | none => s
  | some fileData =>
      let newHeight := clampInput h
      let s1 := pushToHistory s s.settings
      let prev := s1.settings
      let newWidth :=
        if prev.maintainAspectRatio && decide (0 < newHeight)
        then ((jround ((newHeight / fileData.height) * fileData.width) : ℤ) : ℚ)
        else prev.width
      { s1 with settings := { prev with height := newHeight, width := newWidth } }

/-- handleUnitChange: no-op when the unit is unchanged, else push history
and switch the unit. -/
def handleUnitChange (s : AppState) (u : ResizeUnit) : AppState :=
  if u = s.settings.unit then s
  else
    let s1 := pushToHistory s s.settings
    { s1 with settings := { s1.settings with unit := u } }

/-- handleRatioChange: always pushes history, then stores the flag. -/
def handleRatioChange (s : AppState) (maintainAspectRatio : Bool) : AppState :=
  let s1 := pushToHistory s s.settings
  { s1 with settings := { s1.settings with maintainAspectRatio := maintainAspectRatio } }

/-- handlePercentageChange: stores the percentage with no history push. -/
def handlePercentageChange (s : AppState) (percentage : ℚ) : AppState :=
  { s with settings := { s.settings with percentage := percentage } }

/-! ### Concrete states and auxiliary definitions -/

/-- A 100 by 50 test image. -/
def img0 : ImageData :=
  { originalUrl := "u", name := "n", type := "image/png", width := 100, height := 50 }

/-- The state right after a successful ingest of img0. -/
def st0 : AppState :=
  { fileData := some img0
    settings :=
      { width := 100, height := 50, maintainAspectRatio := true
        unit := ResizeUnit.px, percentage := 50 }
    history := []
    future := []
    resizedUrl := none
    isResizing := false }

/-- The initial state of the component: no image loaded yet. -/
def init0 : AppState :=
  { fileData := none
    settings :=
      { width := 0, height := 0, maintainAspectRatio := true
        unit := ResizeUnit.px, percentage := 50 }
    history := []
    future := []
    resizedUrl := none
    isResizing := false }

/-- Percent-mode settings at percentage 100. -/
def stP100 : ResizeSettings :=
  { width := 7, height := 9, maintainAspectRatio := true
    unit := ResizeUnit.percent, percentage := 100 }

/-- The four settings operations that record an undo entry (when their
guard lets them act). -/
inductive Mutation where
  | setWidth (w : Option ℚ)
  | setHeight (h : Option ℚ)
  | setUnit (u : ResizeUnit)
  | setAspectLock (b : Bool)

/-- Dispatch a mutation to the handler embedding it. -/
def applyMutation (s : AppState) : Mutation → AppState
  | Mutation.setWidth w => updateWidth s w
  | Mutation.setHeight h => updateHeight s h
  | Mutation.setUnit u => handleUnitChange s u
  | Mutation.setAspectLock b => handleRatioChange s b

/-- Whether the mutation actually runs pushToHistory in state s: width and
height edits need a loaded image, a unit change needs a different unit,
and the aspect-lock toggle always records. -/
def recordsHistory (s : AppState) : Mutation → Bool
  | Mutation.setWidth _ => s.fileData.isSome
  | Mutation.setHeight _ => s.fileData.isSome
  | Mutation.setUnit u => !(decide (u = s.settings.unit))
  | Mutation.setAspectLock _ => true

/-- A file whose declared MIME type is not an image type. -/
def fileTxt : JsFile := { name := "a.txt", type := "text/plain", content := "c" }

/-- The resolved target dimensions before the clamp, written from the
spec's Dimension Engine wording (percent mode derives from percentage and
the natural dimensions; pixel mode uses the stored fields); used to state
the claim about the render guard against the code. -/
def specResolvedDims (img : ImageData) (st : ResizeSettings) : ℚ × ℚ :=
  if st.unit = ResizeUnit.percent
  then (((jround (img.width * st.percentage / 100) : ℤ) : ℚ),
        ((jround (img.height * st.percentage / 100) : ℤ) : ℚ))
  else (st.width, st.height)

/-- Percent mode with both stored pixel fields at 0: reachable by setting
width and height to 0 and then switching the unit. -/
def stPZ : AppState :=
  { fileData := some img0
    settings :=
      { width := 0, height := 0, maintainAspectRatio := true
        unit := ResizeUnit.percent, percentage := 50 }
    history := []
    future := []
    resizedUrl := none
    isResizing := false }

/-- A render pending on the test image with its seeded settings. -/
def pend0 : PendingRender := { fileData := img0, settings := st0.settings }

/-- st0 with a render outstanding: the flag is up. -/
def stBusy : AppState := { st0 with isResizing := true }

/-! ### Helper lemmas -/

theorem jround_eq_floor (x : ℚ) : jround x = ⌊x + 1/2⌋ := by
  rw [jround, Rat.floor_def', ← Rat.floor_def]

theorem jround_natCast (n : ℕ) : jround (n : ℚ) = (n : ℤ) := by
  rw [jround_eq_floor, show ((n : ℚ)) = (((n : ℤ) : ℚ)) by norm_cast,
    Int.floor_int_add]
  norm_num

theorem undo_concat (s : AppState) (H : List ResizeSettings)
    (p : ResizeSettings) (h : s.history = H ++ [p]) :
    handleUndo s =
      { s with settings := p, history := H, future := s.settings :: s.future } := by
  unfold handleUndo
  rw [h, List.getLast?_concat, List.dropLast_concat]

theorem undo_nil (s : AppState) (h : s.history = []) : handleUndo s = s := by
  unfold handleUndo
  rw [h]
  rfl

theorem redo_cons (s : AppState) (n : ResizeSettings) (F : List ResizeSettings)
    (h : s.future = n :: F) :
    handleRedo s =
      { s with settings := n, history := s.history ++ [s.settings], future := F } := by
  unfold handleRedo
  rw [h]

theorem redo_nil (s : AppState) (h : s.future = []) : handleRedo s = s := by
  unfold handleRedo
  rw [h]

theorem applyMutation_record (s : AppState) (m : Mutation)
    (h : recordsHistory s m = true) :
    applyMutation s m =
      { s with settings := (applyMutation s m).settings,
               history := s.history ++ [s.settings], future := [] } := by
  cases m with
  | setWidth w =>
    rcases hf : s.fileData with _ | img
    · rw [recordsHistory, hf] at h
      simp at h
    · simp [applyMutation, updateWidth, hf, pushToHistory]
  | setHeight hh =>
    rcases hf : s.fileData with _ | img
    · rw [recordsHistory, hf] at h
      simp at h
    · simp [applyMutation, updateHeight, hf, pushToHistory]
  | setUnit u =>
    rw [recordsHistory] at h
    simp only [Bool.not_eq_true', decide_eq_false_iff_not] at h
    simp [applyMutation, handleUnitChange, h, pushToHistory]
  | setAspectLock b =>
    simp [applyMutation, handleRatioChange, pushToHistory]

/-! ### The claims -/

/-- C1: for every loaded image, setWidth stores max(0, w) (NaN as 0) as
the width; when the aspect lock is on and the new width is positive the
stored height becomes round(newWidth * originalHeight / originalWidth);
the prior settings are appended to the past stack and the future stack is
cleared; setHeight is symmetric with width and height swapped. -/
theorem C1_setWidth_setHeight (s : AppState) (img : ImageData)
    (himg : s.fileData = some img) (w : Option ℚ) :
    ((updateWidth s w).settings.width = clampInput w ∧
      (updateWidth s w).settings.height =
        (if s.settings.maintainAspectRatio = true ∧ 0 < clampInput w
         then ((jround (clampInput w * img.height / img.width) : ℤ) : ℚ)
         else s.settings.height) ∧
      (updateWidth s w).history = s.history ++ [s.settings] ∧
      (updateWidth s w).future = []) ∧
    ((updateHeight s w).settings.height = clampInput w ∧
      (updateHeight s w).settings.width =
        (if s.settings.maintainAspectRatio = true ∧ 0 < clampInput w
         then ((jround (clampInput w * img.width / img.height) : ℤ) : ℚ)
         else s.settings.width) ∧
      (updateHeight s w).history = s.history ++ [s.settings] ∧
      (updateHeight s w).future = []) := by
  rw [updateWidth, updateHeight, himg]
  rcases hb : s.settings.maintainAspectRatio with _ | _ <;>
    by_cases hp : 0 < clampInput w <;>
    simp [pushToHistory, hb, hp, div_mul_eq_mul_div]

theorem C1_witness : (updateWidth st0 (some 40)).settings.height = 20 :=
  ((C1_setWidth_setHeight st0 img0 rfl (some 40)).1.2.1).trans
    (by with_unfolding_all decide)

/-- C2: for an image with positive natural dimensions, the render output
dimensions are round(natural * percentage / 100) in percent mode and the
stored width and height in pixel mode, each clamped to a minimum of 1; at
percentage 100 in percent mode they equal the natural dimensions exactly;
and neither starting nor completing a render ever touches the stored
settings. -/
theorem C2_targetDims (img : ImageData) (st : ResizeSettings) (nw nh : ℕ)
    (hw : img.width = (nw : ℚ)) (hh : img.height = (nh : ℚ))
    (hw0 : 0 < nw) (hh0 : 0 < nh) :
    (renderTargetDims img st =
      if st.unit = ResizeUnit.percent
      then (max 1 ((jround (img.width * st.percentage / 100) : ℤ) : ℚ),
            max 1 ((jround (img.height * st.percentage / 100) : ℤ) : ℚ))
      else (max 1 st.width, max 1 st.height)) ∧
    (st.unit = ResizeUnit.percent → st.percentage = 100 →
      renderTargetDims img st = (img.width, img.height)) ∧
    (∀ s : AppState, (performResize s).1.settings = s.settings) ∧
    (∀ (s : AppState) (p : PendingRender) (o : LoadOutcome),
      (completeRender s p o).settings = s.settings) := by
  refine ⟨?_, ?_, ?_, ?_⟩
  · rcases hu : st.unit with _ | _ <;> simp [renderTargetDims, hu]
  · intro hu hp
    have h100 : (100 : ℚ) ≠ 0 := by norm_num
    rw [renderTargetDims]
    simp only [hu, hp, if_pos rfl]
    rw [hw, hh, mul_div_cancel_right₀ _ h100, mul_div_cancel_right₀ _ h100,
      jround_natCast, jround_natCast]
    have w1 : (1 : ℚ) ≤ ((nw : ℤ) : ℚ) := by exact_mod_cast hw0
    have h1 : (1 : ℚ) ≤ ((nh : ℤ) : ℚ) := by exact_mod_cast hh0
    simp only [if_true]
    rw [max_eq_right w1, max_eq_right h1]
    norm_cast
  · intro s
    rcases hf : s.fileData with _ | fd <;> simp [performResize, hf]
  · intro s p o
    rcases o with b | _
    · rcases b with _ | _ <;> simp [completeRender]
    · simp [completeRender]

theorem C2_witness : renderTargetDims img0 stP100 = (100, 50) := by
  have h := (C2_targetDims img0 stP100 100 50 (by with_unfolding_all decide)
    (by with_unfolding_all decide) (by decide) (by decide)).2.1 rfl rfl
  exact h.trans (by with_unfolding_all decide)

/-- C3 counterexample: setPercentage is a settings mutation that records
no history entry, so after one such mutation a single undo does not
restore the previous settings state, contradicting the claim read over
all settings mutations. -/
theorem C3_counterexample :
    (handleUndo (handlePercentageChange st0 70)).settings ≠ st0.settings := by
  with_unfolding_all decide

/-- C3 (amended): undo is a no-op on an empty past stack and otherwise
pops the last past entry, pushes the current settings on the front of
future and makes the popped entry current; redo is symmetric; and after
any history-recording mutation (setWidth, setHeight, a unit-changing
setUnit, setAspectLock) one undo restores the prior state exactly and a
redo immediately after restores the mutated state exactly.  setPercentage
records no history entry and is excluded. -/
theorem C3_amended (s : AppState) (m : Mutation) :
    (s.history = [] → handleUndo s = s) ∧
    (∀ H p, s.history = H ++ [p] →
      handleUndo s =
        { s with settings := p, history := H, future := s.settings :: s.future }) ∧
    (s.future = [] → handleRedo s = s) ∧
    (∀ n F, s.future = n :: F →
      handleRedo s =
        { s with settings := n, history := s.history ++ [s.settings], future := F }) ∧
    (recordsHistory s m = true →
      handleUndo (applyMutation s m) =
        { s with future := [(applyMutation s m).settings] } ∧
      handleRedo (handleUndo (applyMutation s m)) = applyMutation s m) := by
  refine ⟨undo_nil s, fun H p h => undo_concat s H p h, redo_nil s,
    fun n F h => redo_cons s n F h, fun h => ?_⟩
  obtain ⟨σ', hσ⟩ : ∃ σ',
      applyMutation s m =
        { s with settings := σ', history := s.history ++ [s.settings],
                 future := [] } :=
    ⟨_, applyMutation_record s m h⟩
  rw [hσ]
  rw [undo_concat _ s.history s.settings rfl]
  constructor
  · rfl
  · rw [redo_cons _ σ' [] rfl]

theorem C3_witness :
    handleRedo (handleUndo (updateWidth st0 (some 40))) = updateWidth st0 (some 40) :=
  ((C3_amended st0 (Mutation.setWidth (some 40))).2.2.2.2 (by decide)).2

/-- C4 counterexample: with no image loaded, setAspectLock still pushes a
history entry and stores the flag, so not every settings operation is a
no-op on a missing image. -/
theorem C4_counterexample :
    init0.fileData = none ∧ handleRatioChange init0 false ≠ init0 := by
  with_unfolding_all decide

/-- C4 (amended): with no image loaded, setWidth and setHeight are no-ops,
undo and redo are no-ops when their stack is empty, and setUnit is a no-op
at the unchanged unit; but image or not, setUnit at a different unit
records a history entry and switches the unit, setAspectLock always
records a history entry and stores the flag, and setPercentage always
stores the percentage. -/
theorem C4_amended (s : AppState) (hno : s.fileData = none)
    (w hgt : Option ℚ) :
    updateWidth s w = s ∧
    updateHeight s hgt = s ∧
    handleUnitChange s s.settings.unit = s ∧
    (s.history = [] → handleUndo s = s) ∧
    (s.future = [] → handleRedo s = s) ∧
    (∀ u, ¬ u = s.settings.unit →
      (handleUnitChange s u).history = s.history ++ [s.settings] ∧
      (handleUnitChange s u).settings.unit = u) ∧
    (∀ b, (handleRatioChange s b).history = s.history ++ [s.settings] ∧
      (handleRatioChange s b).settings.maintainAspectRatio = b) ∧
    (∀ p, (handlePercentageChange s p).settings.percentage = p) := by
  refine ⟨?_, ?_, ?_, undo_nil s, redo_nil s, ?_, ?_, ?_⟩
  · rw [updateWidth, hno]
  · rw [updateHeight, hno]
  · rw [handleUnitChange, if_pos rfl]
  · intro u hu
    simp [handleUnitChange, hu, pushToHistory]
  · intro b
    simp [handleRatioChange, pushToHistory]
  · intro p
    simp [handlePercentageChange]

theorem C4_witness : updateWidth init0 (some 5) = init0 :=
  (C4_amended init0 rfl (some 5) (some 5)).1

/-- C5: a file whose declared MIME type does not start with image/ is
rejected with no state change; on a successful ingest the image data is
replaced wholesale and the settings are seeded to the natural dimensions
with aspect lock on, pixel unit and percentage 50, and both history
stacks are cleared. -/
theorem C5_ingest (s : AppState) (file : JsFile) :
    (jsStartsWith file.type ("image/") = false →
      ∀ d, handleFileUpload s file d = s) ∧
    (jsStartsWith file.type ("image/") = true → ∀ w h,
      handleFileUpload s file (some (w, h)) =
        { s with
          fileData := some
            { originalUrl := file.content, name := file.name,
              type := file.type, width := w, height := h }
          settings :=
            { width := w, height := h, maintainAspectRatio := true,
              unit := ResizeUnit.px, percentage := 50 }
          history := []
          future := [] }) := by
  constructor
  · intro hrej d
    simp [handleFileUpload, hrej]
  · intro hacc w h
    simp [handleFileUpload, hacc]

theorem C5_witness : handleFileUpload st0 fileTxt (some (3, 4)) = st0 :=
  (C5_ingest st0 fileTxt).1 (by decide) (some (3, 4))

/-- C6 counterexample: with an image loaded, percent unit and positive
resolved target dimensions (50 by 25 here), the guard still blocks the
render because the stored pixel fields are 0, so a render is not
scheduled in a state where the claim says it is. -/
theorem C6_counterexample :
    stPZ.fileData.isSome = true ∧
    (specResolvedDims img0 stPZ.settings).1 ≠ 0 ∧
    (specResolvedDims img0 stPZ.settings).2 ≠ 0 ∧
    renderScheduled stPZ = false := by
  with_unfolding_all decide

/-- C6 (amended): a render pass is not scheduled exactly when no image is
loaded or the stored width field is 0 or the stored height field is 0,
whatever the unit; the guard reads the stored pixel fields even in
percent mode, although the target dimensions the render then computes
depend only on the percentage and the natural dimensions. -/
theorem C6_amended (s : AppState) :
    (renderScheduled s = false ↔
      s.fileData = none ∨ s.settings.width = 0 ∨ s.settings.height = 0) ∧
    (∀ (img : ImageData) (st st' : ResizeSettings),
      st.unit = ResizeUnit.percent → st'.unit = ResizeUnit.percent →
      st.percentage = st'.percentage →
      renderTargetDims img st = renderTargetDims img st') := by
  constructor
  · rcases hf : s.fileData with _ | img
    · simp [renderScheduled, hf]
    · simp [renderScheduled, hf, or_iff_not_imp_left]
  · intro img st st' hu hu' hp
    simp [renderTargetDims, hu, hu', hp]

theorem C6_witness : renderScheduled init0 = false :=
  (C6_amended init0).1.mpr (Or.inl rfl)

/-- C7: reset restores the default settings (width 0, height 0, aspect
lock on, pixel unit, percentage 50), clears both history stacks and
clears the loaded image. -/
theorem C7_reset (s : AppState) :
    (reset s).settings =
      { width := 0, height := 0, maintainAspectRatio := true,
        unit := ResizeUnit.px, percentage := 50 } ∧
    (reset s).history = [] ∧
    (reset s).future = [] ∧
    (reset s).fileData = none := by
  simp [reset]

/-- C8 counterexample: a render whose image load fails runs no handler
(the source registers only onload), so the completion leaves the state,
and with it the raised isResizing flag, untouched: the flag is not
cleared on this completion path. -/
theorem C8_counterexample :
    stBusy.isResizing = true ∧
    completeRender stBusy pend0 LoadOutcome.failure = stBusy := by
  with_unfolding_all decide

/-- C8 (amended): starting a render with an image loaded raises the flag
and captures the image and settings; every load-success completion clears
the flag, with or without a canvas context; starting with no image does
nothing; but a failed image load runs no handler and leaves the whole
state, including a raised flag, unchanged. -/
theorem C8_amended (s : AppState) (img : ImageData)
    (himg : s.fileData = some img) :
    ((performResize s).1.isResizing = true ∧
      (performResize s).2 = some { fileData := img, settings := s.settings }) ∧
    (∀ s' : AppState, s'.fileData = none → performResize s' = (s', none)) ∧
    (∀ (s' : AppState) (p : PendingRender) (b : Bool),
      (completeRender s' p (LoadOutcome.success b)).isResizing = false) ∧
    (∀ (s' : AppState) (p : PendingRender),
      completeRender s' p LoadOutcome.failure = s') := by
  refine ⟨?_, ?_, ?_, fun s' p => rfl⟩
  · simp [performResize, himg]
  · intro s' h
    simp [performResize, h]
  · intro s' p b
    rcases b with _ | _ <;> simp [completeRender]

theorem C8_witness : (performResize st0).1.isResizing = true :=
  (C8_amended st0 img0 rfl).1.1

/-- C9: the published resized URL is preserved by every settings
operation, by ingest, by starting a render, and by failed or
context-less completions; it is replaced only by a completed render with
a context and cleared only by reset; in particular a width edit to 0
blocks the render guard while leaving the previous output in place. -/
theorem C9_output (s : AppState) :
    (∀ w, (updateWidth s w).resizedUrl = s.resizedUrl) ∧
    (∀ h, (updateHeight s h).resizedUrl = s.resizedUrl) ∧
    (∀ u, (handleUnitChange s u).resizedUrl = s.resizedUrl) ∧
    (∀ b, (handleRatioChange s b).resizedUrl = s.resizedUrl) ∧
    (∀ p, (handlePercentageChange s p).resizedUrl = s.resizedUrl) ∧
    (handleUndo s).resizedUrl = s.resizedUrl ∧
    (handleRedo s).resizedUrl = s.resizedUrl ∧
    (∀ f d, (handleFileUpload s f d).resizedUrl = s.resizedUrl) ∧
    (performResize s).1.resizedUrl = s.resizedUrl ∧
    (∀ p, completeRender s p LoadOutcome.failure = s) ∧
    (∀ p, (completeRender s p (LoadOutcome.success false)).resizedUrl =
      s.resizedUrl) ∧
    (∀ p, (completeRender s p (LoadOutcome.success true)).resizedUrl =
      some (canvasToDataURL p.fileData.type
        (renderTargetDims p.fileData p.settings).1
        (renderTargetDims p.fileData p.settings).2 p.fileData.originalUrl)) ∧
    (reset s).resizedUrl = none ∧
    (∀ img, s.fileData = some img →
      renderScheduled (updateWidth s (some 0)) = false ∧
      (updateWidth s (some 0)).resizedUrl = s.resizedUrl) := by
  refine ⟨?_, ?_, ?_, fun b => rfl, fun p => rfl, ?_, ?_, ?_, ?_,
    fun p => rfl, fun p => rfl, fun p => rfl, rfl, ?_⟩
  · intro w
    rcases hf : s.fileData with _ | img <;> simp [updateWidth, hf, pushToHistory]
  · intro h
    rcases hf : s.fileData with _ | img <;> simp [updateHeight, hf, pushToHistory]
  · intro u
    by_cases hu : u = s.settings.unit <;> simp [handleUnitChange, hu, pushToHistory]
  · rcases hl : s.history.getLast? with _ | p <;> simp [handleUndo, hl]
  · rcases hfut : s.future with _ | ⟨n, F⟩ <;> simp [handleRedo, hfut]
  · intro f d
    by_cases hrej : jsStartsWith f.type ("image/") = false
    · simp [handleFileUpload, hrej]
    · rcases d with _ | ⟨w, h⟩ <;> simp [handleFileUpload, hrej]
  · rcases hf : s.fileData with _ | img <;> simp [performResize, hf]
  · intro img himg
    constructor
    · simp [updateWidth, himg, pushToHistory, renderScheduled, clampInput]
    · simp [updateWidth, himg, pushToHistory]

theorem C9_witness : renderScheduled (updateWidth st0 (some 0)) = false :=
  ((C9_output st0).2.2.2.2.2.2.2.2.2.2.2.2.2 img0 rfl).1

/-- C10: setAspectLock pushes a history entry and clears the future stack
on every call, even when the stored flag value is unchanged, while
setUnit at the unchanged unit is a no-op. -/
theorem C10_lock_always_records (s : AppState) (b : Bool) :
    handleRatioChange s b =
      { s with history := s.history ++ [s.settings], future := [],
               settings := { s.settings with maintainAspectRatio := b } } ∧
    (handleRatioChange s s.settings.maintainAspectRatio).history =
      s.history ++ [s.settings] ∧
    (handleRatioChange s s.settings.maintainAspectRatio).future = [] ∧
    handleUnitChange s s.settings.unit = s := by
  refine ⟨rfl, rfl, rfl, ?_⟩
  rw [handleUnitChange, if_pos rfl]
